import Mathlib

/-!
Verification of the fuel-log backend (`fuel_server.py`) against its
natural-language specification.

The server is embedded shallowly: each sqlite table becomes a list of rows,
each HTTP handler becomes a pure Lean function from the stored tables (and the
request data) to its JSON-serializable result.  REAL columns are modelled as
rationals; Python `round(x, d)` is modelled as round-half-up over `ℚ`
(`roundTo`); TEXT timestamps, which sqlite and Python compare
lexicographically and which are chronological for ISO-8601 strings, are
modelled as naturals ordered in the same way.  Python `list.sort` is stable,
so it is modelled by Mathlib insertion sort, which is extensionally equal to
any stable sort for the same key.
-/

/-- Floor of a rational, computed with integer floor division so that the
kernel can evaluate it. -/
def floorQ (q : ℚ) : ℤ := q.num.fdiv q.den

/-- Round-half-up of a rational to an integer: the model of Python `round`
to zero decimal places. -/
def roundQ (q : ℚ) : ℤ := floorQ (q + 1 / 2)

/-- Model of Python `round(q, d)`: round to `d` decimal places. -/
def roundTo (d : ℕ) (q : ℚ) : ℚ := ((roundQ (q * 10 ^ d) : ℤ) : ℚ) / 10 ^ d

/-- Row of the `cars` table (`fuel_server.py` lines 24-31).  The
`created_at` column plays no role in any handler and is omitted. -/
structure Car where
  id : ℕ
  registration : String
  description : String
deriving Repr, DecidableEq

/-- Row of the `fuel_logs` table (`fuel_server.py` lines 32-46).
`logged_at` is a TEXT timestamp, modelled as a natural number with the same
order; `odometer` is nullable. -/
structure FuelLog where
  id : ℕ
  car_id : ℕ
  logged_at : ℕ
  fuel_amount : ℚ
  fuel_unit : String
  price_per_unit : ℚ
  total_cost : ℚ
  odometer : Option ℚ
  notes : String
deriving Repr, DecidableEq

/-- Row of the `service_logs` table (`fuel_server.py` lines 47-62). -/
structure ServiceLog where
  id : ℕ
  car_id : ℕ
  category : String
  logged_at : ℕ
  cost : ℚ
  provider : String
  notes : String
  next_due_date : Option ℕ
  next_due_km : Option ℚ
  odometer : Option ℚ
deriving Repr, DecidableEq

/-- Stable ascending sort by a natural-number key: the model both of SQL
`ORDER BY` on a timestamp column and of Python `list.sort(key=...)`. -/
def sortAsc {α : Type} (key : α → ℕ) (l : List α) : List α :=
  List.insertionSort (fun a b => key a ≤ key b) l

/-- Stable descending sort by a natural-number key: the model of Python
`list.sort(key=..., reverse=True)` and of SQL `ORDER BY ... DESC`. -/
def sortDesc {α : Type} (key : α → ℕ) (l : List α) : List α :=
  List.insertionSort (fun a b => key b ≤ key a) l

/-- The four derived trip-metric fields attached to each fuel entry by
`get_logs` (`fuel_server.py` lines 129-145).  A missing JSON key and a JSON
null are both modelled as `none`. -/
structure Derived where
  distance_km : Option ℚ
  consumption_per100 : Option ℚ
  rand_per_km : Option ℚ
  rand_per_litre_trip : Option ℚ
deriving Repr, DecidableEq

/-- All four derived fields null. -/
def noneD : Derived := { distance_km := none, consumption_per100 := none,
                         rand_per_km := none, rand_per_litre_trip := none }

/-- The odometer value of a row known to carry one (Python reads
`log["odometer"]` directly on rows filtered to non-null odometer). -/
def odoVal (l : FuelLog) : ℚ := l.odometer.getD 0

/-- Derived metrics of `cur` given its predecessor `prev` in the
odometer-bearing ordering: `fuel_server.py` lines 134-145. -/
def tripFields (prev cur : FuelLog) : Derived :=
  let dist := odoVal cur - odoVal prev
  if 0 < dist then
    { distance_km := some (roundTo 1 dist)
      consumption_per100 := some (roundTo 2 (cur.fuel_amount / dist * 100))
      rand_per_km := some (roundTo 4 (cur.total_cost / dist))
      rand_per_litre_trip := some (roundTo 4 cur.price_per_unit) }
  else noneD

/-- Walk the tail of the `with_odo` list pairing each element with its
predecessor (`fuel_server.py` lines 133-145), producing an association list
from row id to derived metrics. -/
def annotateFrom (prev : FuelLog) : List FuelLog → List (ℕ × Derived)
  | [] => []
  | l :: ls => (l.id, tripFields prev l) :: annotateFrom l ls

/-- Association list from row id to derived metrics over a `with_odo` list:
the first element gets all-null fields (`fuel_server.py` lines 128-132), each
later element gets `tripFields` of its predecessor. -/
def annotate : List FuelLog → List (ℕ × Derived)
  | [] => []
  | l :: ls => (l.id, noneD) :: annotateFrom l ls

/-- Optional `car_id` filter of the fuel-log queries (`WHERE fl.car_id = ?`,
`fuel_server.py` lines 103-115 and 185-186). -/
def scopeFuel (db : List FuelLog) (q : Option ℕ) : List FuelLog :=
  match q with
  | some c => db.filter (fun l => l.car_id == c)
  | none => db

/-- Inner join of fuel rows with the `cars` table on `fl.car_id = c.id`
(`fuel_server.py` lines 104-115).  `cars.id` is a primary key, so each row
matches at most one car and the join is a filter. -/
def joinCars (cars : List Car) (rows : List FuelLog) : List FuelLog :=
  rows.filter (fun l => cars.any (fun c => c.id == l.car_id))

/-- The rows fetched by `get_logs`: joined, scoped, ordered by timestamp
ascending (`fuel_server.py` lines 102-115). -/
def ascRows (cars : List Car) (db : List FuelLog) (q : Option ℕ) : List FuelLog :=
  sortAsc (fun l => l.logged_at) (joinCars cars (scopeFuel db q))

/-- The `with_odo` list of the car group `cid` inside `get_logs`
(`fuel_server.py` lines 120-126): the group's rows with a non-null odometer,
sorted by timestamp ascending. -/
def logsWithOdo (cars : List Car) (db : List FuelLog) (q : Option ℕ) (cid : ℕ) :
    List FuelLog :=
  sortAsc (fun l => l.logged_at)
    (((ascRows cars db q).filter (fun l => l.car_id == cid)).filter
      (fun l => l.odometer.isSome))

/-- Derived metrics attached to row `l` by `get_logs`: the in-place dict
mutation over `with_odo` is modelled as a lookup by primary key; rows absent
from `with_odo` keep all derived fields null. -/
def derivedFor (cars : List Car) (db : List FuelLog) (q : Option ℕ)
    (l : FuelLog) : Derived :=
  ((annotate (logsWithOdo cars db q l.car_id)).lookup l.id).getD noneD

/-- The `GET /api/logs` handler (`fuel_server.py` lines 99-148): each fetched
row paired with its derived trip metrics, presented in timestamp-descending
order. -/
def getLogs (cars : List Car) (db : List FuelLog) (q : Option ℕ) :
    List (FuelLog × Derived) :=
  sortDesc (fun p => p.1.logged_at)
    ((ascRows cars db q).map (fun l => (l, derivedFor cars db q l)))

/-- Placeholder row used only as the default of `List.getD` in statements
whose hypotheses put the index in bounds. -/
def defaultLog : FuelLog :=
  { id := 0, car_id := 0, logged_at := 0, fuel_amount := 0, fuel_unit := "",
    price_per_unit := 0, total_cost := 0, odometer := none, notes := "" }

/-- Sum of a list of rationals (SQL `SUM` with `COALESCE(...,0)`: an empty
scope sums to `0`). -/
def sumQ (l : List ℚ) : ℚ := l.sum

/-- Optional `car_id` filter of the service-log queries. -/
def scopeSvc (db : List ServiceLog) (q : Option ℕ) : List ServiceLog :=
  match q with
  | some c => db.filter (fun s => s.car_id == c)
  | none => db

/-- The distinct service categories present in a scope, in first-appearance
order (SQL `GROUP BY category`; the group order is irrelevant to every
claim). -/
def categoriesOf (l : List ServiceLog) : List String :=
  (l.map (fun s => s.category)).dedup

/-- The `service_breakdown` rows of `GET /api/stats` (`fuel_server.py`
lines 216-221): per category, the summed cost and the entry count. -/
def svcBreakdown (l : List ServiceLog) : List (String × ℚ × ℕ) :=
  (categoriesOf l).map (fun c =>
    (c, sumQ ((l.filter (fun s => s.category == c)).map (fun s => s.cost)),
     (l.filter (fun s => s.category == c)).length))

/-- The `GET /api/stats` response object (`fuel_server.py` lines 182-224). -/
structure Stats where
  total_entries : ℕ
  total_fuel : ℚ
  total_spent : ℚ
  avg_price_per_unit : ℚ
  first_odo : Option ℚ
  last_odo : Option ℚ
  total_distance_km : Option ℚ
  avg_consumption_per100 : Option ℚ
  overall_rand_per_km : Option ℚ
  overall_rand_per_litre : Option ℚ
  service_breakdown : List (String × ℚ × ℕ)
  total_service_cost : ℚ
deriving Repr, DecidableEq

/-- The three distance-derived aggregate fields (`fuel_server.py`
lines 200-209): set only when both odometer extremes are present and
`last_odo > first_odo`. -/
def distStats (firstO lastO : Option ℚ) (total_fuel total_spent : ℚ) :
    Option ℚ × Option ℚ × Option ℚ :=
  match firstO, lastO with
  | some f, some la =>
    if f < la then
      (some (roundTo 1 (la - f)),
       some (roundTo 2 (total_fuel / (la - f) * 100)),
       some (roundTo 4 (total_spent / (la - f))))
    else (none, none, none)
  | _, _ => (none, none, none)

/-- The `GET /api/stats` handler (`fuel_server.py` lines 182-224).  It
queries `fuel_logs` and `service_logs` directly, with no join against
`cars`.  SQL `MIN`/`MAX` ignore nulls and are null on an empty column;
`AVG` with `COALESCE(...,0)` is the mean, `0` on an empty scope. -/
def getStats (db : List FuelLog) (svc : List ServiceLog) (q : Option ℕ) : Stats :=
  let scope := scopeFuel db q
  let total_fuel := sumQ (scope.map (fun l => l.fuel_amount))
  let total_spent := sumQ (scope.map (fun l => l.total_cost))
  let firstO := (scope.filterMap (fun l => l.odometer)).min?
  let lastO := (scope.filterMap (fun l => l.odometer)).max?
  let d := distStats firstO lastO total_fuel total_spent
  let breakdown := svcBreakdown (scopeSvc svc q)
  { total_entries := scope.length
    total_fuel := total_fuel
    total_spent := total_spent
    avg_price_per_unit :=
      if scope.length = 0 then 0
      else sumQ (scope.map (fun l => l.price_per_unit)) / scope.length
    first_odo := firstO
    last_odo := lastO
    total_distance_km := d.1
    avg_consumption_per100 := d.2.1
    overall_rand_per_km := d.2.2
    overall_rand_per_litre :=
      if 0 < total_fuel then some (roundTo 4 (total_spent / total_fuel)) else none
    service_breakdown := breakdown
    total_service_cost := sumQ (breakdown.map (fun x => x.2.1)) }

/-- The `GET /api/services` handler (`fuel_server.py` lines 230-245):
optional `car_id` and `category` filters AND-combined, inner join with
`cars`, timestamp-descending order. -/
def getServices (cars : List Car) (svc : List ServiceLog) (qc : Option ℕ)
    (qcat : Option String) : List ServiceLog :=
  sortDesc (fun s => s.logged_at)
    ((svc.filter (fun s =>
        (match qc with | some c => s.car_id == c | none => true) &&
        (match qcat with | some cat => s.category == cat | none => true))).filter
      (fun s => cars.any (fun c => c.id == s.car_id)))

/-- Python whitespace-strip over the character list of a string. -/
def trimChars (l : List Char) : List Char :=
  ((l.dropWhile Char.isWhitespace).reverse.dropWhile Char.isWhitespace).reverse

/-- Model of `data["registration"].strip().upper()` (`fuel_server.py`
line 78); uppercasing is modelled on ASCII letters. -/
def normalizeReg (s : String) : String :=
  String.mk ((trimChars s.data).map Char.toUpper)

/-- Model of `data["description"].strip()`. -/
def trimStr (s : String) : String := String.mk (trimChars s.data)

/-- Fresh autoincremented primary key for an insert. -/
def nextId (ids : List ℕ) : ℕ := ids.foldr max 0 + 1

/-- Result of `POST /api/cars`: 201 with id and normalized registration,
400 on a missing field, or 409 on a duplicate registration. -/
inductive AddCarResult where
  | created (id : ℕ) (registration : String)
  | badRequest (msg : String)
  | conflict (msg : String)
deriving Repr, DecidableEq

/-- The `POST /api/cars` handler (`fuel_server.py` lines 73-88).  The falsy
test `not data.get(...)` on a string field is emptiness; the UNIQUE
constraint on `cars.registration` raises `IntegrityError` exactly when the
normalized registration is already stored, in which case nothing is
inserted. -/
def addCar (db : List Car) (registration description : String) :
    List Car × AddCarResult :=
  if registration = "" || description = "" then
    (db, .badRequest "registration and description are required")
  else
    let reg := normalizeReg registration
    if db.any (fun c => c.registration == reg) then
      (db, .conflict ("Registration " ++ reg ++ " already exists"))
    else
      (db ++ [{ id := nextId (db.map (fun c => c.id)), registration := reg,
                description := trimStr description }],
       .created (nextId (db.map (fun c => c.id))) reg)

/-- The `DELETE /api/cars/<id>` handler (`fuel_server.py` lines 90-95): it
removes the car row only; fuel and service rows keep referencing the id. -/
def deleteCar (db : List Car) (cid : ℕ) : List Car :=
  db.filter (fun c => c.id != cid)

/-- Request body of `POST /api/logs`.  The handler's falsy test on required
fields maps to `0` for numerals and `""` for strings; the nullable
`odometer` is `none` when absent. -/
structure LogRequest where
  car_id : ℕ
  logged_at : ℕ
  fuel_amount : ℚ
  fuel_unit : String
  price_per_unit : ℚ
  odometer : Option ℚ
  notes : String
deriving Repr, DecidableEq

/-- Result of `POST /api/logs`. -/
inductive AddLogResult where
  | created (id : ℕ) (total_cost : ℚ)
  | badRequest (msg : String)
deriving Repr, DecidableEq

/-- Model of `float(data["odometer"]) if data.get("odometer") else None`:
a falsy (zero or absent) odometer is stored as null. -/
def storedOdo (o : Option ℚ) : Option ℚ :=
  match o with
  | some v => if v = 0 then none else some v
  | none => none

/-- The `POST /api/logs` handler (`fuel_server.py` lines 150-171): required
fields are checked falsy in order; `total_cost` is computed once at insert
time as `round(fuel_amount * price_per_unit, 2)` and persisted. -/
def addLog (db : List FuelLog) (r : LogRequest) : List FuelLog × AddLogResult :=
  if r.car_id = 0 then (db, .badRequest "Missing field: car_id")
  else if r.logged_at = 0 then (db, .badRequest "Missing field: logged_at")
  else if r.fuel_amount = 0 then (db, .badRequest "Missing field: fuel_amount")
  else if r.fuel_unit = "" then (db, .badRequest "Missing field: fuel_unit")
  else if r.price_per_unit = 0 then (db, .badRequest "Missing field: price_per_unit")
  else
    (db ++ [{ id := nextId (db.map (fun l => l.id)), car_id := r.car_id,
              logged_at := r.logged_at, fuel_amount := r.fuel_amount,
              fuel_unit := r.fuel_unit, price_per_unit := r.price_per_unit,
              total_cost := roundTo 2 (r.fuel_amount * r.price_per_unit),
              odometer := storedOdo r.odometer, notes := r.notes }],
     .created (nextId (db.map (fun l => l.id)))
       (roundTo 2 (r.fuel_amount * r.price_per_unit)))

/-- The `DELETE /api/logs/<id>` handler (`fuel_server.py` lines 173-178). -/
def deleteLog (db : List FuelLog) (lid : ℕ) : List FuelLog :=
  db.filter (fun l => l.id != lid)

/-- The fixed service-category set (`fuel_server.py` line 228). -/
def VALID_CATEGORIES : List String :=
  ["tyres", "car_wash", "car_service", "panel_beating", "special_service"]

/-- Request body of `POST /api/services`: the four required fields are
checked with `is None`, so each is an `Option`; a present `0` cost is a
value, not a missing field. -/
structure SvcRequest where
  car_id : Option ℕ
  category : Option String
  logged_at : Option ℕ
  cost : Option ℚ
  provider : String
  notes : String
  next_due_date : Option ℕ
  next_due_km : Option ℚ
  odometer : Option ℚ
deriving Repr, DecidableEq

/-- Result of `POST /api/services`. -/
inductive AddSvcResult where
  | created (id : ℕ)
  | badRequest (msg : String)
deriving Repr, DecidableEq

/-- Model of the falsy coercion of optional numeric fields on insert
(`fuel_server.py` lines 263-265). -/
def falsyOptQ (o : Option ℚ) : Option ℚ :=
  match o with
  | some v => if v = 0 then none else some v
  | none => none

/-- The `POST /api/services` handler (`fuel_server.py` lines 247-268): the
four required fields are null-checked in order, then the category must be in
`VALID_CATEGORIES`; only then is a row inserted. -/
def addService (db : List ServiceLog) (r : SvcRequest) :
    List ServiceLog × AddSvcResult :=
  match r.car_id, r.category, r.logged_at, r.cost with
  | none, _, _, _ => (db, .badRequest "Missing field: car_id")
  | some _, none, _, _ => (db, .badRequest "Missing field: category")
  | some _, some _, none, _ => (db, .badRequest "Missing field: logged_at")
  | some _, some _, some _, none => (db, .badRequest "Missing field: cost")
  | some cid, some cat, some ts, some cost =>
    if cat ∈ VALID_CATEGORIES then
      (db ++ [{ id := nextId (db.map (fun s => s.id)), car_id := cid,
                category := cat, logged_at := ts, cost := cost,
                provider := r.provider, notes := r.notes,
                next_due_date := r.next_due_date,
                next_due_km := falsyOptQ r.next_due_km,
                odometer := falsyOptQ r.odometer }],
       .created (nextId (db.map (fun s => s.id))))
    else (db, .badRequest "Invalid category")

/-- The `DELETE /api/services/<id>` handler (`fuel_server.py`
lines 270-275). -/
def deleteService (db : List ServiceLog) (sid : ℕ) : List ServiceLog :=
  db.filter (fun s => s.id != sid)

/-! ### Concrete tables used by the witness theorems -/

def sCars : List Car := [{ id := 1, registration := "CF 1", description := "d" }]

def sLog1 : FuelLog :=
  { id := 1, car_id := 1, logged_at := 1, fuel_amount := 40, fuel_unit := "litres",
    price_per_unit := 20, total_cost := 800, odometer := some 1000, notes := "" }

def sLog2 : FuelLog :=
  { id := 2, car_id := 1, logged_at := 2, fuel_amount := 10, fuel_unit := "litres",
    price_per_unit := 20, total_cost := 200, odometer := some 1200, notes := "" }

def sDb : List FuelLog := [sLog1, sLog2]

def tLog1 : FuelLog :=
  { id := 1, car_id := 1, logged_at := 1, fuel_amount := 40, fuel_unit := "litres",
    price_per_unit := 20, total_cost := 800, odometer := some 1000, notes := "" }

def tLog2 : FuelLog :=
  { id := 2, car_id := 1, logged_at := 2, fuel_amount := 30, fuel_unit := "litres",
    price_per_unit := 20, total_cost := 600, odometer := some 900, notes := "" }

def tDb : List FuelLog := [tLog1, tLog2]

def uLog1 : FuelLog :=
  { id := 1, car_id := 1, logged_at := 1, fuel_amount := 40, fuel_unit := "litres",
    price_per_unit := 20, total_cost := 800, odometer := none, notes := "" }

def uLog2 : FuelLog :=
  { id := 2, car_id := 1, logged_at := 2, fuel_amount := 30, fuel_unit := "litres",
    price_per_unit := 20, total_cost := 600, odometer := some 500, notes := "" }

def uDb : List FuelLog := [uLog1, uLog2]

def oLog : FuelLog :=
  { id := 7, car_id := 9, logged_at := 3, fuel_amount := 25, fuel_unit := "litres",
    price_per_unit := 20, total_cost := 500, odometer := some 100, notes := "" }

def oSvcRow : ServiceLog :=
  { id := 4, car_id := 9, category := "tyres", logged_at := 5, cost := 50,
    provider := "", notes := "", next_due_date := none, next_due_km := none,
    odometer := none }

def rLog : LogRequest :=
  { car_id := 1, logged_at := 1, fuel_amount := 10, fuel_unit := "litres",
    price_per_unit := 3 / 2, odometer := none, notes := "" }

def rSvc : SvcRequest :=
  { car_id := some 1, category := some "car_wash", logged_at := some 1,
    cost := some 0, provider := "", notes := "", next_due_date := none,
    next_due_km := none, odometer := none }

def rSvcBad : SvcRequest :=
  { car_id := some 1, category := some "oil", logged_at := some 1,
    cost := some 10, provider := "", notes := "", next_due_date := none,
    next_due_km := none, odometer := none }

/-! ### Association-list and sorting helper lemmas -/

theorem lookup_eq_some_of_nodup {ps : List (ℕ × Derived)} {k : ℕ} {v : Derived}
    (hnd : (ps.map Prod.fst).Nodup) (hmem : (k, v) ∈ ps) :
    ps.lookup k = some v := by
  induction ps with
  | nil => cases hmem
  | cons p t ih =>
    rcases List.mem_cons.1 hmem with h | h
    · cases h
      simp [List.lookup]
    · have hk : k ≠ p.1 := by
        intro he
        have : k ∈ t.map Prod.fst := List.mem_map_of_mem Prod.fst h
        simp only [List.map_cons, List.nodup_cons] at hnd
        exact hnd.1 (he ▸ this)
      have hbeq : (k == p.1) = false := beq_false_of_ne hk
      simp only [List.lookup, hbeq]
      exact ih (by simp only [List.map_cons, List.nodup_cons] at hnd; exact hnd.2) h

theorem lookup_eq_none_of_not_mem {ps : List (ℕ × Derived)} {k : ℕ}
    (h : k ∉ ps.map Prod.fst) : ps.lookup k = none := by
  induction ps with
  | nil => rfl
  | cons p t ih =>
    simp only [List.map_cons, List.mem_cons, not_or] at h
    have hbeq : (k == p.1) = false := beq_false_of_ne h.1
    simp only [List.lookup, hbeq]
    exact ih h.2

theorem annotateFrom_keys (prev : FuelLog) (ls : List FuelLog) :
    (annotateFrom prev ls).map Prod.fst = ls.map (fun l => l.id) := by
  induction ls generalizing prev with
  | nil => rfl
  | cons l t ih => simp [annotateFrom, ih]

theorem annotate_keys (wo : List FuelLog) :
    (annotate wo).map Prod.fst = wo.map (fun l => l.id) := by
  cases wo with
  | nil => rfl
  | cons l t => simp [annotate, annotateFrom_keys]

theorem mem_annotateFrom_zero (prev : FuelLog) (ls : List FuelLog)
    (h : 0 < ls.length) :
    ((ls.get ⟨0, h⟩).id, tripFields prev (ls.get ⟨0, h⟩)) ∈ annotateFrom prev ls := by
  cases ls with
  | nil => cases h
  | cons l t => exact List.mem_cons_self _ _

theorem mem_annotateFrom_succ (prev : FuelLog) (ls : List FuelLog) (j : ℕ)
    (h : j + 1 < ls.length) :
    ((ls.get ⟨j + 1, h⟩).id,
      tripFields (ls.get ⟨j, Nat.lt_of_succ_lt h⟩) (ls.get ⟨j + 1, h⟩)) ∈
      annotateFrom prev ls := by
  induction j generalizing prev ls with
  | zero =>
    cases ls with
    | nil => cases h
    | cons l t =>
      exact List.mem_cons_of_mem _ (mem_annotateFrom_zero l t (by
        simpa using Nat.lt_of_succ_lt_succ h))
  | succ j ih =>
    cases ls with
    | nil => cases h
    | cons l t =>
      exact List.mem_cons_of_mem _ (ih l t (Nat.lt_of_succ_lt_succ h))

theorem mem_annotate_zero (wo : List FuelLog) (h : 0 < wo.length) :
    ((wo.get ⟨0, h⟩).id, noneD) ∈ annotate wo := by
  cases wo with
  | nil => cases h
  | cons l t => exact List.mem_cons_self _ _

theorem mem_annotate_succ (wo : List FuelLog) (i : ℕ) (h : i + 1 < wo.length) :
    ((wo.get ⟨i + 1, h⟩).id,
      tripFields (wo.get ⟨i, Nat.lt_of_succ_lt h⟩) (wo.get ⟨i + 1, h⟩)) ∈
      annotate wo := by
  cases wo with
  | nil => cases h
  | cons l t =>
    cases i with
    | zero =>
      exact List.mem_cons_of_mem _ (mem_annotateFrom_zero l t
        (by simpa using Nat.lt_of_succ_lt_succ h))
    | succ j =>
      exact List.mem_cons_of_mem _ (mem_annotateFrom_succ l t j
        (Nat.lt_of_succ_lt_succ h))

theorem mem_sortAsc {α : Type} {key : α → ℕ} {l : List α} {a : α} :
    a ∈ sortAsc key l ↔ a ∈ l :=
  List.mem_insertionSort _

theorem mem_sortDesc {α : Type} {key : α → ℕ} {l : List α} {a : α} :
    a ∈ sortDesc key l ↔ a ∈ l :=
  List.mem_insertionSort _

theorem nodup_map_sortAsc {α β : Type} [DecidableEq β] {key : α → ℕ} {f : α → β}
    {l : List α} (h : (l.map f).Nodup) : ((sortAsc key l).map f).Nodup :=
  (((List.perm_insertionSort _ l).map f).nodup_iff).2 h

theorem nodup_map_filter {α β : Type} [DecidableEq β] {p : α → Bool} {f : α → β}
    {l : List α} (h : (l.map f).Nodup) : ((l.filter p).map f).Nodup :=
  List.Nodup.sublist ((List.filter_sublist l).map f) h

theorem scopeFuel_sublist (db : List FuelLog) (q : Option ℕ) :
    List.Sublist (scopeFuel db q) db := by
  cases q with
  | none => exact List.Sublist.refl db
  | some c => exact List.filter_sublist db

theorem nodup_id_ascRows {cars : List Car} {db : List FuelLog} {q : Option ℕ}
    (hnd : (db.map (fun l => l.id)).Nodup) :
    ((ascRows cars db q).map (fun l => l.id)).Nodup := by
  have h1 : ((scopeFuel db q).map (fun l => l.id)).Nodup :=
    List.Nodup.sublist ((scopeFuel_sublist db q).map _) hnd
  have h2 : ((joinCars cars (scopeFuel db q)).map (fun l => l.id)).Nodup :=
    nodup_map_filter h1
  exact nodup_map_sortAsc h2

theorem nodup_id_logsWithOdo {cars : List Car} {db : List FuelLog} {q : Option ℕ}
    {cid : ℕ} (hnd : (db.map (fun l => l.id)).Nodup) :
    ((logsWithOdo cars db q cid).map (fun l => l.id)).Nodup :=
  nodup_map_sortAsc (nodup_map_filter (nodup_map_filter (nodup_id_ascRows hnd)))

theorem mem_logsWithOdo {cars : List Car} {db : List FuelLog} {q : Option ℕ}
    {cid : ℕ} {l : FuelLog} (h : l ∈ logsWithOdo cars db q cid) :
    l ∈ ascRows cars db q ∧ l.car_id = cid ∧ l.odometer.isSome = true := by
  have h1 := mem_sortAsc.1 h
  have h2 := List.of_mem_filter h1
  have h3 := List.mem_of_mem_filter h1
  have h4 := List.of_mem_filter h3
  exact ⟨List.mem_of_mem_filter h3, by simpa using h4, by simpa using h2⟩

/-- The row of the `with_odo` list of car `cid` at position `i` (`defaultLog`
when out of bounds; every statement using it bounds the index). -/
def woAt (cars : List Car) (db : List FuelLog) (q : Option ℕ) (cid i : ℕ) :
    FuelLog :=
  (logsWithOdo cars db q cid).getD i defaultLog

theorem derivedFor_get_zero {cars : List Car} {db : List FuelLog} {q : Option ℕ}
    {cid : ℕ} (hnd : (db.map (fun l => l.id)).Nodup)
    (h : 0 < (logsWithOdo cars db q cid).length) :
    derivedFor cars db q ((logsWithOdo cars db q cid).get ⟨0, h⟩) = noneD := by
  have hmem : (logsWithOdo cars db q cid).get ⟨0, h⟩ ∈ logsWithOdo cars db q cid :=
    List.get_mem _ 0 h
  have hcid : ((logsWithOdo cars db q cid).get ⟨0, h⟩).car_id = cid :=
    (mem_logsWithOdo hmem).2.1
  have hkeys : ((annotate (logsWithOdo cars db q cid)).map Prod.fst).Nodup := by
    rw [annotate_keys]
    exact nodup_id_logsWithOdo hnd
  have hlook : (annotate (logsWithOdo cars db q cid)).lookup
      ((logsWithOdo cars db q cid).get ⟨0, h⟩).id = some noneD :=
    lookup_eq_some_of_nodup hkeys (mem_annotate_zero _ h)
  simp only [List.get_eq_getElem] at hcid hlook
  simp [derivedFor, hcid, hlook]

theorem derivedFor_get_succ {cars : List Car} {db : List FuelLog} {q : Option ℕ}
    {cid : ℕ} (hnd : (db.map (fun l => l.id)).Nodup) (i : ℕ)
    (h : i + 1 < (logsWithOdo cars db q cid).length) :
    derivedFor cars db q ((logsWithOdo cars db q cid).get ⟨i + 1, h⟩) =
      tripFields ((logsWithOdo cars db q cid).get ⟨i, Nat.lt_of_succ_lt h⟩)
        ((logsWithOdo cars db q cid).get ⟨i + 1, h⟩) := by
  have hmem : (logsWithOdo cars db q cid).get ⟨i + 1, h⟩ ∈ logsWithOdo cars db q cid :=
    List.get_mem _ (i + 1) h
  have hcid : ((logsWithOdo cars db q cid).get ⟨i + 1, h⟩).car_id = cid :=
    (mem_logsWithOdo hmem).2.1
  have hkeys : ((annotate (logsWithOdo cars db q cid)).map Prod.fst).Nodup := by
    rw [annotate_keys]
    exact nodup_id_logsWithOdo hnd
  have hlook : (annotate (logsWithOdo cars db q cid)).lookup
      ((logsWithOdo cars db q cid).get ⟨i + 1, h⟩).id =
      some (tripFields ((logsWithOdo cars db q cid).get ⟨i, Nat.lt_of_succ_lt h⟩)
        ((logsWithOdo cars db q cid).get ⟨i + 1, h⟩)) :=
    lookup_eq_some_of_nodup hkeys (mem_annotate_succ _ i h)
  simp only [List.get_eq_getElem] at hcid hlook
  simp [derivedFor, hcid, hlook]

theorem mem_getLogs_of_mem_asc {cars : List Car} {db : List FuelLog}
    {q : Option ℕ} {l : FuelLog} (hl : l ∈ ascRows cars db q) :
    (l, derivedFor cars db q l) ∈ getLogs cars db q :=
  mem_sortDesc.2 (List.mem_map_of_mem _ hl)

theorem mem_getLogs_inv {cars : List Car} {db : List FuelLog} {q : Option ℕ}
    {p : FuelLog × Derived} (hp : p ∈ getLogs cars db q) :
    ∃ l, l ∈ ascRows cars db q ∧ p = (l, derivedFor cars db q l) := by
  have := mem_sortDesc.1 hp
  rcases List.mem_map.1 this with ⟨l, hl, he⟩
  exact ⟨l, hl, he.symm⟩

theorem mem_asc_of_mem_logsWithOdo {cars : List Car} {db : List FuelLog}
    {q : Option ℕ} {cid : ℕ} {l : FuelLog} (h : l ∈ logsWithOdo cars db q cid) :
    l ∈ ascRows cars db q :=
  (mem_logsWithOdo h).1

theorem woAt_eq_get {cars : List Car} {db : List FuelLog} {q : Option ℕ}
    {cid i : ℕ} (h : i < (logsWithOdo cars db q cid).length) :
    woAt cars db q cid i = (logsWithOdo cars db q cid).get ⟨i, h⟩ := by
  rw [woAt, List.getD_eq_getElem _ _ h]
  simp

/-- C1: for every vehicle, over the subsequence of its fuel entries with a
non-null odometer sorted by timestamp ascending (`logsWithOdo`), each entry
after the first whose odometer delta over its predecessor is strictly
positive appears in the `GET /api/logs` response with exactly
`distance_km = round(delta, 1)`,
`consumption_per100 = round(fuel_amount / delta * 100, 2)`,
`rand_per_km = round(total_cost / delta, 4)` and
`rand_per_litre_trip = round(price_per_unit, 4)`. -/
theorem getLogs_positive_delta_metrics (cars : List Car) (db : List FuelLog)
    (q : Option ℕ) (cid i : ℕ) (hnd : (db.map (fun l => l.id)).Nodup)
    (h : i + 1 < (logsWithOdo cars db q cid).length)
    (hpos : 0 < odoVal (woAt cars db q cid (i + 1)) - odoVal (woAt cars db q cid i)) :
    (woAt cars db q cid (i + 1),
      { distance_km := some (roundTo 1
          (odoVal (woAt cars db q cid (i + 1)) - odoVal (woAt cars db q cid i))),
        consumption_per100 := some (roundTo 2
          ((woAt cars db q cid (i + 1)).fuel_amount /
            (odoVal (woAt cars db q cid (i + 1)) - odoVal (woAt cars db q cid i)) * 100)),
        rand_per_km := some (roundTo 4
          ((woAt cars db q cid (i + 1)).total_cost /
            (odoVal (woAt cars db q cid (i + 1)) - odoVal (woAt cars db q cid i)))),
        rand_per_litre_trip := some (roundTo 4
          (woAt cars db q cid (i + 1)).price_per_unit) }) ∈ getLogs cars db q := by
  have e1 : woAt cars db q cid i =
      (logsWithOdo cars db q cid).get ⟨i, Nat.lt_of_succ_lt h⟩ :=
    woAt_eq_get (Nat.lt_of_succ_lt h)
  have e2 : woAt cars db q cid (i + 1) =
      (logsWithOdo cars db q cid).get ⟨i + 1, h⟩ := woAt_eq_get h
  rw [e1, e2] at hpos ⊢
  have hmem : ((logsWithOdo cars db q cid).get ⟨i + 1, h⟩,
      derivedFor cars db q ((logsWithOdo cars db q cid).get ⟨i + 1, h⟩)) ∈
      getLogs cars db q :=
    mem_getLogs_of_mem_asc (mem_asc_of_mem_logsWithOdo (List.get_mem _ (i + 1) h))
  rw [derivedFor_get_succ hnd i h] at hmem
  rw [tripFields, if_pos hpos] at hmem
  exact hmem

/-- C1 witness: with one car and two odometer-bearing entries at 1000 and
1200 km, the second entry appears in the listing with the four derived
fields computed from its delta of 200 km. -/
theorem getLogs_positive_delta_metrics_witness :
    0 < odoVal (woAt sCars sDb none 1 1) - odoVal (woAt sCars sDb none 1 0) ∧
    (woAt sCars sDb none 1 1,
      { distance_km := some (roundTo 1
          (odoVal (woAt sCars sDb none 1 1) - odoVal (woAt sCars sDb none 1 0))),
        consumption_per100 := some (roundTo 2
          ((woAt sCars sDb none 1 1).fuel_amount /
            (odoVal (woAt sCars sDb none 1 1) - odoVal (woAt sCars sDb none 1 0)) * 100)),
        rand_per_km := some (roundTo 4
          ((woAt sCars sDb none 1 1).total_cost /
            (odoVal (woAt sCars sDb none 1 1) - odoVal (woAt sCars sDb none 1 0)))),
        rand_per_litre_trip := some (roundTo 4
          (woAt sCars sDb none 1 1).price_per_unit) }) ∈ getLogs sCars sDb none := by
  have h1 : woAt sCars sDb none 1 1 = sLog2 := by decide
  have h0 : woAt sCars sDb none 1 0 = sLog1 := by decide
  have hpos : 0 < odoVal (woAt sCars sDb none 1 1) - odoVal (woAt sCars sDb none 1 0) := by
    rw [h1, h0]
    norm_num [odoVal, sLog1, sLog2]
  exact ⟨hpos, getLogs_positive_delta_metrics sCars sDb none 1 0 (by decide) (by decide) hpos⟩

/-- C2: in the `GET /api/logs` response, the earliest odometer-bearing entry
of each vehicle, and every odometer-bearing entry whose odometer delta over
its predecessor is zero or negative, carries all four derived trip fields
null.  The division by the delta only happens under the `0 < delta` guard of
`tripFields`, so (together with the totality of `getLogs`) no arithmetic
error can be raised for any stored data. -/
theorem getLogs_null_metric_cases (cars : List Car) (db : List FuelLog)
    (q : Option ℕ) (cid : ℕ) (hnd : (db.map (fun l => l.id)).Nodup) :
    (∀ h : 0 < (logsWithOdo cars db q cid).length,
      (woAt cars db q cid 0, noneD) ∈ getLogs cars db q) ∧
    (∀ i, ∀ h : i + 1 < (logsWithOdo cars db q cid).length,
      odoVal (woAt cars db q cid (i + 1)) - odoVal (woAt cars db q cid i) ≤ 0 →
      (woAt cars db q cid (i + 1), noneD) ∈ getLogs cars db q) := by
  constructor
  · intro h
    rw [woAt_eq_get h]
    have hmem : ((logsWithOdo cars db q cid).get ⟨0, h⟩,
        derivedFor cars db q ((logsWithOdo cars db q cid).get ⟨0, h⟩)) ∈
        getLogs cars db q :=
      mem_getLogs_of_mem_asc (mem_asc_of_mem_logsWithOdo (List.get_mem _ 0 h))
    rwa [derivedFor_get_zero hnd h] at hmem
  · intro i h hle
    rw [woAt_eq_get h] at hle ⊢
    rw [woAt_eq_get (Nat.lt_of_succ_lt h)] at hle
    have hmem : ((logsWithOdo cars db q cid).get ⟨i + 1, h⟩,
        derivedFor cars db q ((logsWithOdo cars db q cid).get ⟨i + 1, h⟩)) ∈
        getLogs cars db q :=
      mem_getLogs_of_mem_asc (mem_asc_of_mem_logsWithOdo (List.get_mem _ (i + 1) h))
    rw [derivedFor_get_succ hnd i h] at hmem
    rw [tripFields, if_neg (not_lt.2 hle)] at hmem
    exact hmem

/-- C2 witness: with odometer readings 1000 then 900 (a decrease), the first
entry and the second entry both appear in the listing with all derived
fields null. -/
theorem getLogs_null_metric_cases_witness :
    (woAt sCars tDb none 1 0, noneD) ∈ getLogs sCars tDb none ∧
    (woAt sCars tDb none 1 1, noneD) ∈ getLogs sCars tDb none := by
  have h := getLogs_null_metric_cases sCars tDb none 1 (by decide)
  refine ⟨h.1 (by decide), h.2 0 (by decide) ?_⟩
  have h1 : woAt sCars tDb none 1 1 = tLog2 := by decide
  have h0 : woAt sCars tDb none 1 0 = tLog1 := by decide
  rw [h1, h0]
  norm_num [odoVal, tLog1, tLog2]

/-- C4: fuel entries with a null odometer reading never receive derived trip
metrics — every row of the `GET /api/logs` response whose odometer is null
has all four derived fields null — and the `with_odo` ordering used to
compute the other entries' deltas contains only odometer-bearing entries. -/
theorem getLogs_null_odometer_no_metrics (cars : List Car) (db : List FuelLog)
    (q : Option ℕ) (hnd : (db.map (fun l => l.id)).Nodup) :
    (∀ p ∈ getLogs cars db q, p.1.odometer = none → p.2 = noneD) ∧
    (∀ cid, ∀ l ∈ logsWithOdo cars db q cid, l.odometer.isSome = true) := by
  constructor
  · intro p hp hodo
    rcases mem_getLogs_inv hp with ⟨l, hl, he⟩
    subst he
    simp only at hodo ⊢
    have hnotin : l.id ∉ (logsWithOdo cars db q l.car_id).map (fun x => x.id) := by
      intro hin
      rcases List.mem_map.1 hin with ⟨w, hw, hid⟩
      have hwodo : w.odometer.isSome = true := (mem_logsWithOdo hw).2.2
      have hwasc : w ∈ ascRows cars db q := (mem_logsWithOdo hw).1
      have hne : w ≠ l := by
        intro he
        rw [he, hodo] at hwodo
        cases hwodo
      exact hne (List.inj_on_of_nodup_map (nodup_id_ascRows hnd) hwasc hl hid)
    have : (annotate (logsWithOdo cars db q l.car_id)).lookup l.id = none := by
      apply lookup_eq_none_of_not_mem
      rw [annotate_keys]
      exact hnotin
    simp [derivedFor, this]
  · intro cid l hl
    exact (mem_logsWithOdo hl).2.2

/-- C4 witness: a stored entry without an odometer reading appears in the
listing with all four derived fields null, and the `with_odo` list of its
car omits it. -/
theorem getLogs_null_odometer_no_metrics_witness :
    (uLog1, noneD) ∈ getLogs sCars uDb none ∧ uLog1.odometer = none ∧
    ((uLog1, noneD) : FuelLog × Derived).2 = noneD ∧
    uLog2 ∈ logsWithOdo sCars uDb none 1 ∧ uLog2.odometer.isSome = true := by
  have h := getLogs_null_odometer_no_metrics sCars uDb none (by decide)
  have hmem : (uLog1, noneD) ∈ getLogs sCars uDb none := by decide
  have hwo : uLog2 ∈ logsWithOdo sCars uDb none 1 := by decide
  exact ⟨hmem, by decide, h.1 _ hmem (by decide), hwo, h.2 1 uLog2 hwo⟩

theorem getStats_first_odo (db : List FuelLog) (svc : List ServiceLog)
    (q : Option ℕ) : (getStats db svc q).first_odo =
      ((scopeFuel db q).filterMap (fun l => l.odometer)).min? := rfl

theorem getStats_last_odo (db : List FuelLog) (svc : List ServiceLog)
    (q : Option ℕ) : (getStats db svc q).last_odo =
      ((scopeFuel db q).filterMap (fun l => l.odometer)).max? := rfl

theorem getStats_total_entries (db : List FuelLog) (svc : List ServiceLog)
    (q : Option ℕ) : (getStats db svc q).total_entries = (scopeFuel db q).length := rfl

theorem getStats_total_fuel (db : List FuelLog) (svc : List ServiceLog)
    (q : Option ℕ) : (getStats db svc q).total_fuel =
      sumQ ((scopeFuel db q).map (fun l => l.fuel_amount)) := rfl

theorem getStats_total_spent (db : List FuelLog) (svc : List ServiceLog)
    (q : Option ℕ) : (getStats db svc q).total_spent =
      sumQ ((scopeFuel db q).map (fun l => l.total_cost)) := rfl

theorem getStats_dist_triple (db : List FuelLog) (svc : List ServiceLog)
    (q : Option ℕ) :
    ((getStats db svc q).total_distance_km,
     (getStats db svc q).avg_consumption_per100,
     (getStats db svc q).overall_rand_per_km) =
      distStats (getStats db svc q).first_odo (getStats db svc q).last_odo
        (getStats db svc q).total_fuel (getStats db svc q).total_spent := rfl

theorem getStats_rand_per_litre (db : List FuelLog) (svc : List ServiceLog)
    (q : Option ℕ) : (getStats db svc q).overall_rand_per_litre =
      if 0 < (getStats db svc q).total_fuel then
        some (roundTo 4 ((getStats db svc q).total_spent / (getStats db svc q).total_fuel))
      else none := rfl

theorem getStats_total_service_cost (db : List FuelLog) (svc : List ServiceLog)
    (q : Option ℕ) : (getStats db svc q).total_service_cost =
      sumQ ((svcBreakdown (scopeSvc svc q)).map (fun x => x.2.1)) := rfl

theorem distStats_none_left (lastO : Option ℚ) (tf ts : ℚ) :
    distStats none lastO tf ts = (none, none, none) := by
  cases lastO <;> rfl

theorem distStats_none_right (f : ℚ) (tf ts : ℚ) :
    distStats (some f) none tf ts = (none, none, none) := rfl

theorem distStats_some_some (f la : ℚ) (tf ts : ℚ) :
    distStats (some f) (some la) tf ts =
      if f < la then
        (some (roundTo 1 (la - f)), some (roundTo 2 (tf / (la - f) * 100)),
         some (roundTo 4 (ts / (la - f))))
      else (none, none, none) := rfl

/-- C3: in the `GET /api/stats` response, when both odometer extremes are
present and `last_odo > first_odo` the three distance-derived fields equal
`round(last - first, 1)`, `round(total_fuel / dist * 100, 2)` and
`round(total_spent / dist, 4)`, and they are null otherwise;
`overall_rand_per_litre` is `round(total_spent / total_fuel, 4)` exactly
when `total_fuel > 0` and null otherwise; and with an empty fuel scope the
counters are zero and every distance/rate field is null. -/
theorem getStats_aggregate_fields (db : List FuelLog) (svc : List ServiceLog)
    (q : Option ℕ) :
    (∀ f la : ℚ, (getStats db svc q).first_odo = some f →
      (getStats db svc q).last_odo = some la → f < la →
      (getStats db svc q).total_distance_km = some (roundTo 1 (la - f)) ∧
      (getStats db svc q).avg_consumption_per100 =
        some (roundTo 2 ((getStats db svc q).total_fuel / (la - f) * 100)) ∧
      (getStats db svc q).overall_rand_per_km =
        some (roundTo 4 ((getStats db svc q).total_spent / (la - f)))) ∧
    (((getStats db svc q).first_odo = none ∨ (getStats db svc q).last_odo = none ∨
      (∀ f la : ℚ, (getStats db svc q).first_odo = some f →
        (getStats db svc q).last_odo = some la → ¬ f < la)) →
      (getStats db svc q).total_distance_km = none ∧
      (getStats db svc q).avg_consumption_per100 = none ∧
      (getStats db svc q).overall_rand_per_km = none) ∧
    (0 < (getStats db svc q).total_fuel →
      (getStats db svc q).overall_rand_per_litre =
        some (roundTo 4
          ((getStats db svc q).total_spent / (getStats db svc q).total_fuel))) ∧
    (¬ 0 < (getStats db svc q).total_fuel →
      (getStats db svc q).overall_rand_per_litre = none) ∧
    (scopeFuel db q = [] →
      (getStats db svc q).total_entries = 0 ∧ (getStats db svc q).total_fuel = 0 ∧
      (getStats db svc q).total_spent = 0 ∧ (getStats db svc q).first_odo = none ∧
      (getStats db svc q).last_odo = none ∧
      (getStats db svc q).total_distance_km = none ∧
      (getStats db svc q).avg_consumption_per100 = none ∧
      (getStats db svc q).overall_rand_per_km = none ∧
      (getStats db svc q).overall_rand_per_litre = none) := by
  have htriple := getStats_dist_triple db svc q
  refine ⟨?_, ?_, ?_, ?_, ?_⟩
  · intro f la hf hla hlt
    rw [hf, hla, distStats_some_some, if_pos hlt] at htriple
    exact ⟨congrArg (fun t => t.1) htriple,
           congrArg (fun t => t.2.1) htriple,
           congrArg (fun t => t.2.2) htriple⟩
  · intro hcase
    have hnone : distStats (getStats db svc q).first_odo (getStats db svc q).last_odo
        (getStats db svc q).total_fuel (getStats db svc q).total_spent =
        (none, none, none) := by
      rcases h1 : (getStats db svc q).first_odo with _ | f
      · exact distStats_none_left _ _ _
      · rcases h2 : (getStats db svc q).last_odo with _ | la
        · exact distStats_none_right _ _ _
        · rcases hcase with hc | hc | hc
          · rw [h1] at hc; cases hc
          · rw [h2] at hc; cases hc
          · rw [distStats_some_some, if_neg (hc f la h1 h2)]
    rw [hnone] at htriple
    exact ⟨congrArg (fun t => t.1) htriple,
           congrArg (fun t => t.2.1) htriple,
           congrArg (fun t => t.2.2) htriple⟩
  · intro hpos
    rw [getStats_rand_per_litre, if_pos hpos]
  · intro hneg
    rw [getStats_rand_per_litre, if_neg hneg]
  · intro h0
    have hf : (getStats db svc q).total_fuel = 0 := by
      rw [getStats_total_fuel, h0]; rfl
    have hs : (getStats db svc q).total_spent = 0 := by
      rw [getStats_total_spent, h0]; rfl
    have h1 : (getStats db svc q).first_odo = none := by
      rw [getStats_first_odo, h0]; rfl
    have h2 : (getStats db svc q).last_odo = none := by
      rw [getStats_last_odo, h0]; rfl
    have hnone : distStats (getStats db svc q).first_odo (getStats db svc q).last_odo
        (getStats db svc q).total_fuel (getStats db svc q).total_spent =
        (none, none, none) := by
      rw [h1, distStats_none_left]
    rw [hnone] at htriple
    refine ⟨by rw [getStats_total_entries, h0]; rfl, hf, hs, h1, h2,
            congrArg (fun t => t.1) htriple,
            congrArg (fun t => t.2.1) htriple,
            congrArg (fun t => t.2.2) htriple, ?_⟩
    rw [getStats_rand_per_litre, hf, hs]
    simp

/-- C3 witness: with stored odometer extremes 1000 and 1200, 50 litres and
1000 total spend, the distance-derived fields take the specified rounded
values, and on an empty store every aggregate is zero or null. -/
theorem getStats_aggregate_fields_witness :
    ((getStats sDb [] none).total_distance_km = some (roundTo 1 (1200 - 1000)) ∧
     (getStats sDb [] none).avg_consumption_per100 =
       some (roundTo 2 ((getStats sDb [] none).total_fuel / (1200 - 1000) * 100)) ∧
     (getStats sDb [] none).overall_rand_per_km =
       some (roundTo 4 ((getStats sDb [] none).total_spent / (1200 - 1000)))) ∧
    ((getStats [] [] none).total_entries = 0 ∧ (getStats [] [] none).total_fuel = 0 ∧
     (getStats [] [] none).total_spent = 0 ∧ (getStats [] [] none).first_odo = none ∧
     (getStats [] [] none).last_odo = none ∧
     (getStats [] [] none).total_distance_km = none ∧
     (getStats [] [] none).avg_consumption_per100 = none ∧
     (getStats [] [] none).overall_rand_per_km = none ∧
     (getStats [] [] none).overall_rand_per_litre = none) := by
  constructor
  · have h := (getStats_aggregate_fields sDb [] none).1 1000 1200
      (by decide) (by decide) (by norm_num)
    exact h
  · exact ((getStats_aggregate_fields [] [] none).2.2.2.2) rfl

/-- C5: every successful `POST /api/logs` returns and persists
`total_cost = round(fuel_amount * price_per_unit, 2)`; the insert only
appends, pre-existing rows survive unchanged, and the only other mutation of
the table (`DELETE /api/logs`) only removes rows, so the stored value is
never recomputed after insertion. -/
theorem addLog_total_cost (db : List FuelLog) (r : LogRequest)
    (db2 : List FuelLog) (i : ℕ) (tc : ℚ)
    (h : addLog db r = (db2, .created i tc)) :
    tc = roundTo 2 (r.fuel_amount * r.price_per_unit) ∧
    (∃ row : FuelLog, db2 = db ++ [row] ∧
      row.total_cost = roundTo 2 (r.fuel_amount * r.price_per_unit) ∧
      row.fuel_amount = r.fuel_amount ∧ row.price_per_unit = r.price_per_unit) ∧
    (∀ x ∈ db, x ∈ db2) ∧
    (∀ lid : ℕ, ∀ x ∈ deleteLog db2 lid, x ∈ db2) := by
  rw [addLog] at h
  split_ifs at h with h1 h2 h3 h4 h5
  · simp at h
  · simp at h
  · simp at h
  · simp at h
  · simp at h
  · rw [Prod.mk.injEq] at h
    obtain ⟨hdb, hres⟩ := h
    injection hres with hi htc
    subst htc
    refine ⟨rfl, ⟨_, hdb.symm, rfl, rfl, rfl⟩, ?_, ?_⟩
    · intro x hx
      rw [← hdb]
      exact List.mem_append_left _ hx
    · intro lid x hx
      exact List.mem_of_mem_filter hx

/-- C5 witness: inserting a request with 10 units of fuel at 3/2 per unit
into an empty table produces exactly the rounded product as the returned and
stored `total_cost`. -/
theorem addLog_total_cost_witness :
    roundTo 2 (rLog.fuel_amount * rLog.price_per_unit) =
      roundTo 2 (rLog.fuel_amount * rLog.price_per_unit) ∧
    (∃ row : FuelLog, (addLog [] rLog).1 = [] ++ [row] ∧
      row.total_cost = roundTo 2 (rLog.fuel_amount * rLog.price_per_unit) ∧
      row.fuel_amount = rLog.fuel_amount ∧ row.price_per_unit = rLog.price_per_unit) ∧
    (∀ x ∈ ([] : List FuelLog), x ∈ (addLog [] rLog).1) ∧
    (∀ lid : ℕ, ∀ x ∈ deleteLog (addLog [] rLog).1 lid, x ∈ (addLog [] rLog).1) :=
  addLog_total_cost [] rLog (addLog [] rLog).1 1
    (roundTo 2 (rLog.fuel_amount * rLog.price_per_unit))
    (by simp [addLog, rLog, nextId])

theorem addCar_success (db : List Car) (reg desc : String)
    (h1 : reg ≠ "") (h2 : desc ≠ "")
    (h3 : ∀ c ∈ db, c.registration ≠ normalizeReg reg) :
    addCar db reg desc =
      (db ++ [{ id := nextId (db.map (fun c => c.id)),
                registration := normalizeReg reg, description := trimStr desc }],
       .created (nextId (db.map (fun c => c.id))) (normalizeReg reg)) := by
  have hany : (db.any (fun c => c.registration == normalizeReg reg)) = false := by
    rw [List.any_eq_false]
    intro c hc
    simp only [beq_iff_eq]
    exact h3 c hc
  rw [addCar]
  simp [h1, h2, hany]

/-- C8: a successful `POST /api/cars` stores and returns the submitted
registration trimmed of surrounding whitespace and uppercased
(`normalizeReg`), together with the trimmed description. -/
theorem addCar_normalizes_registration (db : List Car) (reg desc : String)
    (h1 : reg ≠ "") (h2 : desc ≠ "")
    (h3 : ∀ c ∈ db, c.registration ≠ normalizeReg reg) :
    addCar db reg desc =
      (db ++ [{ id := nextId (db.map (fun c => c.id)),
                registration := normalizeReg reg, description := trimStr desc }],
       .created (nextId (db.map (fun c => c.id))) (normalizeReg reg)) :=
  addCar_success db reg desc h1 h2 h3

/-- C8 witness: creating a vehicle with registration `"cf 12 ab"` stores and
returns `"CF 12 AB"`. -/
theorem addCar_normalizes_registration_witness :
    normalizeReg "cf 12 ab" = "CF 12 AB" ∧
    addCar [] "cf 12 ab" "Test" =
      ([{ id := nextId (([] : List Car).map (fun c => c.id)),
          registration := normalizeReg "cf 12 ab", description := trimStr "Test" }],
       .created (nextId (([] : List Car).map (fun c => c.id))) (normalizeReg "cf 12 ab")) := by
  refine ⟨by decide, ?_⟩
  have h := addCar_normalizes_registration [] "cf 12 ab" "Test" (by decide) (by decide)
    (by intro c hc; cases hc)
  simpa using h

/-- C6: after a vehicle is created, submitting the same registration again
(equal after trim/uppercase normalization, hence case-insensitively) yields
a 409 conflict whose message contains the normalized registration, and
leaves the vehicles table exactly as it was. -/
theorem addCar_duplicate_conflict (db : List Car) (reg1 desc1 reg2 desc2 : String)
    (h1 : reg1 ≠ "") (h2 : desc1 ≠ "")
    (h3 : ∀ c ∈ db, c.registration ≠ normalizeReg reg1)
    (h4 : reg2 ≠ "") (h5 : desc2 ≠ "")
    (heq : normalizeReg reg2 = normalizeReg reg1) :
    addCar (addCar db reg1 desc1).1 reg2 desc2 =
      ((addCar db reg1 desc1).1,
       .conflict ("Registration " ++ normalizeReg reg2 ++ " already exists")) ∧
    (∃ pre post : String,
      "Registration " ++ normalizeReg reg2 ++ " already exists" =
        pre ++ normalizeReg reg2 ++ post) := by
  have hfirst := addCar_success db reg1 desc1 h1 h2 h3
  refine ⟨?_, "Registration ", " already exists", rfl⟩
  have hfst : (addCar db reg1 desc1).1 =
      db ++ [{ id := nextId (db.map (fun c => c.id)),
               registration := normalizeReg reg1, description := trimStr desc1 }] := by
    rw [hfirst]
  have hany : ((addCar db reg1 desc1).1.any
      (fun c => c.registration == normalizeReg reg2)) = true := by
    rw [hfst, List.any_eq_true]
    refine ⟨{ id := nextId (db.map (fun c => c.id)),
              registration := normalizeReg reg1, description := trimStr desc1 },
            List.mem_append_right _ (List.mem_singleton_self _), ?_⟩
    simp [heq]
  rw [addCar]
  simp [h4, h5, hany]

/-- C6 witness: creating registration `"ab"` and then submitting `" AB "`
(same after normalization) produces a conflict naming `"AB"` and leaves the
table unchanged. -/
theorem addCar_duplicate_conflict_witness :
    addCar (addCar [] "ab" "x").1 " AB " "y" =
      ((addCar [] "ab" "x").1,
       .conflict ("Registration " ++ normalizeReg " AB " ++ " already exists")) ∧
    (∃ pre post : String,
      "Registration " ++ normalizeReg " AB " ++ " already exists" =
        pre ++ normalizeReg " AB " ++ post) :=
  addCar_duplicate_conflict [] "ab" "x" " AB " "y" (by decide) (by decide)
    (by intro c hc; cases hc) (by decide) (by decide) (by decide)

/-- C7: `POST /api/services` rejects with 400 and writes nothing exactly
when one of `car_id`, `category`, `logged_at`, `cost` is absent/null (a
null check, so a present cost of `0` passes) or the category is outside the
fixed set; otherwise it appends the service entry and returns 201 with its
id. -/
theorem addService_validation (db : List ServiceLog) (r : SvcRequest) :
    ((r.car_id = none ∨ r.category = none ∨ r.logged_at = none ∨ r.cost = none ∨
        (∃ c, r.category = some c ∧ c ∉ VALID_CATEGORIES)) →
      ∃ m, addService db r = (db, .badRequest m)) ∧
    (¬ (r.car_id = none ∨ r.category = none ∨ r.logged_at = none ∨ r.cost = none ∨
        (∃ c, r.category = some c ∧ c ∉ VALID_CATEGORIES)) →
      ∃ e : ServiceLog, addService db r =
        (db ++ [e], .created (nextId (db.map (fun s => s.id))))) := by
  constructor
  · intro hbad
    rcases hc : r.car_id with _ | cid
    · exact ⟨_, by rw [addService, hc]⟩
    · rcases hcat : r.category with _ | cat
      · exact ⟨_, by rw [addService, hc, hcat]⟩
      · rcases hts : r.logged_at with _ | ts
        · exact ⟨_, by rw [addService, hc, hcat, hts]⟩
        · rcases hcost : r.cost with _ | cost
          · exact ⟨_, by rw [addService, hc, hcat, hts, hcost]⟩
          · have hinv : cat ∉ VALID_CATEGORIES := by
              rcases hbad with h | h | h | h | ⟨c, hceq, hcnv⟩
              · rw [hc] at h; cases h
              · rw [hcat] at h; cases h
              · rw [hts] at h; cases h
              · rw [hcost] at h; cases h
              · rw [hcat] at hceq
                injection hceq with he
                rwa [← he] at hcnv
            refine ⟨"Invalid category", ?_⟩
            rw [addService, hc, hcat, hts, hcost]
            simp [hinv]
  · intro hgood
    rcases hc : r.car_id with _ | cid
    · exact absurd (Or.inl hc) hgood
    · rcases hcat : r.category with _ | cat
      · exact absurd (Or.inr (Or.inl hcat)) hgood
      · rcases hts : r.logged_at with _ | ts
        · exact absurd (Or.inr (Or.inr (Or.inl hts))) hgood
        · rcases hcost : r.cost with _ | cost
          · exact absurd (Or.inr (Or.inr (Or.inr (Or.inl hcost)))) hgood
          · by_cases hv : cat ∈ VALID_CATEGORIES
            · refine ⟨{ id := nextId (db.map (fun s => s.id)), car_id := cid,
                        category := cat, logged_at := ts, cost := cost,
                        provider := r.provider, notes := r.notes,
                        next_due_date := r.next_due_date,
                        next_due_km := falsyOptQ r.next_due_km,
                        odometer := falsyOptQ r.odometer }, ?_⟩
              rw [addService, hc, hcat, hts, hcost]
              simp [hv]
            · exact absurd (Or.inr (Or.inr (Or.inr (Or.inr ⟨cat, hcat, hv⟩)))) hgood

/-- C7 witness: a request with a present cost of `0` and the valid category
`"car_wash"` is accepted and inserted, while the invalid category `"oil"`
is rejected with 400 and no write. -/
theorem addService_validation_witness :
    (∃ e : ServiceLog, addService [] rSvc =
      ([] ++ [e], .created (nextId (([] : List ServiceLog).map (fun s => s.id))))) ∧
    (∃ m, addService [] rSvcBad = ([], .badRequest m)) := by
  constructor
  · apply (addService_validation [] rSvc).2
    intro h
    rcases h with h | h | h | h | ⟨c, hc, hnc⟩
    · cases h
    · cases h
    · cases h
    · cases h
    · have : c = "car_wash" := by
        have : rSvc.category = some "car_wash" := rfl
        rw [this] at hc
        injection hc with he
        exact he.symm
      rw [this] at hnc
      exact hnc (by decide)
  · apply (addService_validation [] rSvcBad).1
    refine Or.inr (Or.inr (Or.inr (Or.inr ⟨"oil", rfl, by decide⟩)))

/-- C9: `GET /api/logs` is deterministic: it is a pure function of the
stored vehicles and fuel entries, so two invocations over equal stores with
no writes in between return identical output. -/
theorem getLogs_deterministic (cars1 cars2 : List Car) (db1 db2 : List FuelLog)
    (q : Option ℕ) (hc : cars1 = cars2) (hd : db1 = db2) :
    getLogs cars1 db1 q = getLogs cars2 db2 q := by
  rw [hc, hd]

/-- C9 witness: two calls over the same concrete store agree. -/
theorem getLogs_deterministic_witness :
    getLogs sCars sDb none = getLogs sCars sDb none :=
  getLogs_deterministic sCars sCars sDb sDb none rfl rfl

theorem sum_map_filter_split (p : ServiceLog → Bool) (l : List ServiceLog) :
    sumQ ((l.filter p).map (fun s => s.cost)) +
      sumQ ((l.filter (fun a => !(p a))).map (fun s => s.cost)) =
      sumQ (l.map (fun s => s.cost)) := by
  induction l with
  | nil => simp [sumQ]
  | cons a t ih =>
    cases h : p a with
    | true =>
      simp only [List.filter_cons, h, Bool.not_true, if_pos, if_neg, List.map_cons,
        sumQ, List.sum_cons, ite_true, ite_false, Bool.false_eq_true,
        not_false_eq_true]
      simp only [sumQ] at ih
      linarith
    | false =>
      simp only [List.filter_cons, h, Bool.not_false, List.map_cons, sumQ,
        List.sum_cons, ite_true, ite_false, Bool.false_eq_true, not_false_eq_true]
      simp only [sumQ] at ih
      linarith

theorem filter_cat_comm (c cp : String) (hne : cp ≠ c) (l : List ServiceLog) :
    (l.filter (fun s => !(s.category == c))).filter (fun s => s.category == cp) =
      l.filter (fun s => s.category == cp) := by
  induction l with
  | nil => rfl
  | cons a t ih =>
    by_cases h : a.category = c
    · have h1 : (a.category == c) = true := by simp [h]
      have h2 : (a.category == cp) = false := by
        simp only [beq_eq_false_iff_ne, ne_eq]
        intro he
        exact hne (by rw [← he, h])
      simp [List.filter_cons, h1, h2, ih]
    · have h1 : (a.category == c) = false := by simp [h]
      by_cases hp : a.category = cp
      · have h2 : (a.category == cp) = true := by simp [hp]
        simp [List.filter_cons, h1, h2, ih]
      · have h2 : (a.category == cp) = false := by simp [hp]
        simp [List.filter_cons, h1, h2, ih]

theorem sum_over_categories (cats : List String) : ∀ l : List ServiceLog,
    cats.Nodup → (∀ s ∈ l, s.category ∈ cats) →
    sumQ (cats.map (fun c =>
      sumQ ((l.filter (fun s => s.category == c)).map (fun s => s.cost)))) =
      sumQ (l.map (fun s => s.cost)) := by
  induction cats with
  | nil =>
    intro l hnd hcov
    cases l with
    | nil => simp [sumQ]
    | cons s t => exact absurd (hcov s (List.mem_cons_self s t)) (List.not_mem_nil _)
  | cons c cs ih =>
    intro l hnd hcov
    have hnd2 : cs.Nodup := (List.nodup_cons.1 hnd).2
    have hcnotin : c ∉ cs := (List.nodup_cons.1 hnd).1
    have hcov2 : ∀ s ∈ l.filter (fun a => !(a.category == c)), s.category ∈ cs := by
      intro s hs
      have hmem := List.mem_of_mem_filter hs
      have hne := List.of_mem_filter hs
      rcases List.mem_cons.1 (hcov s hmem) with h | h
      · exfalso
        simp only [Bool.not_eq_eq_eq_not, Bool.not_true, beq_eq_false_iff_ne, ne_eq] at hne
        exact hne h
      · exact h
    have hmapeq : cs.map (fun cp =>
        sumQ ((l.filter (fun s => s.category == cp)).map (fun s => s.cost))) =
        cs.map (fun cp =>
          sumQ (((l.filter (fun a => !(a.category == c))).filter
            (fun s => s.category == cp)).map (fun s => s.cost))) := by
      apply List.map_congr_left
      intro cp hcp
      have hne : cp ≠ c := fun he => hcnotin (he ▸ hcp)
      rw [filter_cat_comm c cp hne l]
    have hih := ih (l.filter (fun a => !(a.category == c))) hnd2 hcov2
    have hsplit := sum_map_filter_split (fun s => s.category == c) l
    simp only [List.map_cons, sumQ, List.sum_cons] at *
    rw [hmapeq, hih]
    linarith

theorem svcBreakdown_total (l : List ServiceLog) :
    sumQ ((svcBreakdown l).map (fun x => x.2.1)) = sumQ (l.map (fun s => s.cost)) := by
  rw [svcBreakdown, List.map_map]
  have hcomp : ((fun x : String × ℚ × ℕ => x.2.1) ∘ (fun c =>
      (c, sumQ ((l.filter (fun s => s.category == c)).map (fun s => s.cost)),
       (l.filter (fun s => s.category == c)).length))) = (fun c =>
      sumQ ((l.filter (fun s => s.category == c)).map (fun s => s.cost))) := rfl
  rw [hcomp]
  exact sum_over_categories (categoriesOf l) l (List.nodup_dedup _)
    (fun s hs => List.mem_dedup.2 (List.mem_map_of_mem _ hs))

theorem getStats_avg_price (db : List FuelLog) (svc : List ServiceLog)
    (q : Option ℕ) : (getStats db svc q).avg_price_per_unit =
      if (scopeFuel db q).length = 0 then 0
      else sumQ ((scopeFuel db q).map (fun l => l.price_per_unit)) /
        (scopeFuel db q).length := rfl

/-- C10: entries that still reference a deleted (or otherwise absent)
vehicle id are excluded from the `GET /api/logs` and `GET /api/services`
listings, which inner-join against the vehicles table, yet `GET /api/stats`
queries the entry tables without a join, so every total, the price average
and both odometer extremes, as well as the service totals, are computed over
the full tables, orphans included — listings and statistics can therefore
disagree on the entries in scope. -/
theorem orphaned_entries_listings_vs_stats (cars : List Car) (db : List FuelLog)
    (svc : List ServiceLog) (l : FuelLog) (s : ServiceLog)
    (hl : l ∈ db) (hs : s ∈ svc)
    (hol : ∀ c ∈ cars, c.id ≠ l.car_id) (hos : ∀ c ∈ cars, c.id ≠ s.car_id) :
    (∀ q : Option ℕ, ∀ p ∈ getLogs cars db q, p.1 ≠ l) ∧
    (∀ qc : Option ℕ, ∀ qcat : Option String, s ∉ getServices cars svc qc qcat) ∧
    (getStats db svc none).total_entries = db.length ∧
    (getStats db svc none).total_fuel = sumQ (db.map (fun x => x.fuel_amount)) ∧
    (getStats db svc none).total_spent = sumQ (db.map (fun x => x.total_cost)) ∧
    (getStats db svc none).avg_price_per_unit =
      sumQ (db.map (fun x => x.price_per_unit)) / db.length ∧
    (getStats db svc none).first_odo = (db.filterMap (fun x => x.odometer)).min? ∧
    (getStats db svc none).last_odo = (db.filterMap (fun x => x.odometer)).max? ∧
    (getStats db svc none).total_service_cost = sumQ (svc.map (fun x => x.cost)) := by
  refine ⟨?_, ?_, rfl, rfl, rfl, ?_, rfl, rfl, ?_⟩
  · intro q p hp heq
    rcases mem_getLogs_inv hp with ⟨x, hx, he⟩
    have hxl : x = l := by rw [he] at heq; exact heq
    have hx2 := mem_sortAsc.1 hx
    have hany := List.of_mem_filter hx2
    simp only at hany
    rcases List.any_eq_true.1 hany with ⟨c, hc, hbeq⟩
    have : c.id = x.car_id := by simpa using hbeq
    exact hol c hc (by rw [this, hxl])
  · intro qc qcat hmem
    have h1 := mem_sortDesc.1 hmem
    have hany := List.of_mem_filter h1
    simp only at hany
    rcases List.any_eq_true.1 hany with ⟨c, hc, hbeq⟩
    have : c.id = s.car_id := by simpa using hbeq
    exact hos c hc this
  · have hne : db.length ≠ 0 := by
      cases db with
      | nil => cases hl
      | cons a t => simp
    have hsc : scopeFuel db none = db := rfl
    rw [getStats_avg_price, hsc, if_neg hne]
  · rw [getStats_total_service_cost]
    exact svcBreakdown_total svc

/-- C10 witness: a fuel entry and a service entry referencing car id 9,
which is not in the vehicles table, appear in no listing while the stats
aggregates, the price average included, still count them. -/
theorem orphaned_entries_listings_vs_stats_witness :
    (∀ q : Option ℕ, ∀ p ∈ getLogs sCars [oLog] q, p.1 ≠ oLog) ∧
    (∀ qc : Option ℕ, ∀ qcat : Option String,
      oSvcRow ∉ getServices sCars [oSvcRow] qc qcat) ∧
    (getStats [oLog] [oSvcRow] none).total_entries = [oLog].length ∧
    (getStats [oLog] [oSvcRow] none).total_fuel =
      sumQ ([oLog].map (fun x => x.fuel_amount)) ∧
    (getStats [oLog] [oSvcRow] none).total_spent =
      sumQ ([oLog].map (fun x => x.total_cost)) ∧
    (getStats [oLog] [oSvcRow] none).avg_price_per_unit =
      sumQ ([oLog].map (fun x => x.price_per_unit)) / ([oLog].length : ℚ) ∧
    (getStats [oLog] [oSvcRow] none).first_odo =
      ([oLog].filterMap (fun x => x.odometer)).min? ∧
    (getStats [oLog] [oSvcRow] none).last_odo =
      ([oLog].filterMap (fun x => x.odometer)).max? ∧
    (getStats [oLog] [oSvcRow] none).total_service_cost =
      sumQ ([oSvcRow].map (fun x => x.cost)) :=
  orphaned_entries_listings_vs_stats sCars [oLog] [oSvcRow] oLog oSvcRow
    (by decide) (by decide) (by decide) (by decide)
